import Mathlib

/-!
# Verification of the occupancy-network training pipelines

Shallow embedding of the parts of the repository that the claims concern:

* `im2mesh/onet_depth/training.py` — `depth_to_L`, `Phase1Trainer.compute_loss`,
  `Phase2Trainer` (`__init__`, `compute_loss`, `train_step`) and `compose_inputs`;
* `im2mesh/onet_multi_layers_predict/models/feature_extractor.py` — `Resnet18_Local`;
* `classify/dataset.py` — `get_dataset` and the inputs-field constructors.

Tensors are modelled as (nested) lists of rationals; the 3-vectors and the
3×3 / 3×4 matrices that appear in the coordinate-frame transfers get their own
structures.  Framework operations (ReLU, `grid_sample`, the encoder networks,
distribution objects) that the source only composes are kept abstract, as
parameters or as fields of the module structures.  Repository helpers that are
not part of the sources under verification (`background_setting`,
`transform_points`, `project_to_camera`, `get_world_mat`) are modelled from the
specification and marked as such in their doc comments.
-/

deriving instance DecidableEq for Except

/-- A 3-vector of rationals (one 3D point, or one translation column). -/
structure Vec3 where
  x : ℚ
  y : ℚ
  z : ℚ
deriving DecidableEq

/-- A 2-vector of rationals (one projected image coordinate). -/
structure Vec2 where
  x : ℚ
  y : ℚ
deriving DecidableEq

/-- A 3×3 matrix of rationals, stored as three rows. -/
structure Mat3 where
  r0 : Vec3
  r1 : Vec3
  r2 : Vec3
deriving DecidableEq

/-- A 3×4 world matrix `[R | t]`: a rotation block and a translation column. -/
structure Mat34 where
  R : Mat3
  t : Vec3
deriving DecidableEq

/-- Dot product of two 3-vectors. -/
def Vec3.dot (a b : Vec3) : ℚ :=
  a.x * b.x + a.y * b.y + a.z * b.z

/-- Matrix-vector product `M ⬝ p`. -/
def Mat3.mulVec (M : Mat3) (p : Vec3) : Vec3 :=
  ⟨M.r0.dot p, M.r1.dot p, M.r2.dot p⟩

/-- Transpose of a 3×3 matrix. -/
def Mat3.transpose (M : Mat3) : Mat3 :=
  ⟨⟨M.r0.x, M.r1.x, M.r2.x⟩, ⟨M.r0.y, M.r1.y, M.r2.y⟩, ⟨M.r0.z, M.r1.z, M.r2.z⟩⟩

/-- Sum of a list of rationals (`tensor.sum()` on one axis). -/
def sumQ (l : List ℚ) : ℚ := l.foldr (· + ·) 0

/-- Mean of a list of rationals (`tensor.mean()` over the batch axis). -/
def meanQ (l : List ℚ) : ℚ := sumQ l / l.length

/-- A batch of depth maps; each map is its flattened list of pixels. -/
abbrev DepthMaps := List (List ℚ)

/-- A batch of pixel masks, flattened the same way as the depth maps. -/
abbrev Masks := List (List Bool)

/-- A batch of point clouds (`batch × n_points × 3`). -/
abbrev PointClouds := List (List Vec3)

/-- Modelled from the spec: `background_setting(depth_map, mask, v)` from
`im2mesh/onet_depth/models` (not among the sources) implements the "depth
background masking" of the spec on a single map: every pixel whose mask entry
is false is set to `v`, pixels under the mask are kept.  The Python function
mutates its argument in place (its call sites discard the returned value);
state passing makes that explicit at each call site below. -/
def background_setting1 (dm : List ℚ) (mask : List Bool) (v : ℚ) : List ℚ :=
  List.zipWith (fun p b => if b then p else v) dm mask

/-- The helper `background_setting` applied batchwise to a batch of depth maps. -/
def background_setting_b (dms : DepthMaps) (masks : Masks) (v : ℚ) : DepthMaps :=
  List.zipWith (fun dm m => background_setting1 dm m v) dms masks

/-- The pixels of a depth map selected by the mask (`dm[mask]`). -/
def maskedVals (dm : List ℚ) (mask : List Bool) : List ℚ :=
  ((dm.zip mask).filter (fun p => p.2)).map (fun p => p.1)

/-- The reduction `torch.max` over a list of values (0 on the empty list, where torch
raises instead; every use below is guarded by a nonempty selection). -/
def listMax (l : List ℚ) : ℚ := l.foldl max (l.headD 0)

/-- The reduction `torch.min` over a list of values (same convention as `listMax`). -/
def listMin (l : List ℚ) : ℚ := l.foldl min (l.headD 0)

/-- The function `depth_to_L` (training.py lines 17–23) embedded with explicit state for
the tensor passed as `pr_depth_map`: the call `background_setting(pr, mask,
max)` on line 21 updates the caller's tensor in place, and line 22 rebinds the
local name to a fresh rescaled tensor.  The result is the pair
`(returned tensor, final contents of the caller's tensor)`. -/
def depth_to_L (pr_depth_map : List ℚ) (gt_mask : List Bool) :
    List ℚ × List ℚ :=
  let pr_depth_map_max := listMax (maskedVals pr_depth_map gt_mask)
  let pr_depth_map_min := listMin (maskedVals pr_depth_map gt_mask)
  let pr1 := background_setting1 pr_depth_map gt_mask pr_depth_map_max
  let ret := pr1.map (fun v => (v - pr_depth_map_min) /
    (pr_depth_map_max - pr_depth_map_min))
  (ret, pr1)

/-! ## `compose_inputs` (training.py lines 355–433) -/

/-- Modelled from the spec: the 3×4 branch of `im2mesh.common.transform_points`
(not among the sources).  `points @ R.transpose(1, 2) + t.transpose(1, 2)`
sends each point `p` of each batch item to `R ⬝ p + t`, batchwise. -/
def transform_points (pts : PointClouds) (mats : List Mat34) : PointClouds :=
  List.zipWith (fun ps m => ps.map (fun p =>
    let q := m.R.mulVec p
    ⟨q.x + m.t.x, q.y + m.t.y, q.z + m.t.z⟩)) pts mats

/-- Modelled from the spec: the 3×3 branch of `im2mesh.common.transform_points`
(not among the sources).  `points @ K.transpose(1, 2)` sends each point `p` of
each batch item to `K ⬝ p`, batchwise. -/
def transform_points3 (pts : PointClouds) (mats : List Mat3) : PointClouds :=
  List.zipWith (fun ps K => ps.map K.mulVec) pts mats

/-- Modelled from the spec: `im2mesh.common.project_to_camera` (not among the
sources) transforms the points with the camera matrix and divides the first
two coordinates by the third, batchwise. -/
def project_to_camera (pts : PointClouds) (mats : List Mat3) :
    List (List Vec2) :=
  (transform_points3 pts mats).map (fun ps =>
    ps.map (fun p => ⟨p.x / p.z, p.y / p.z⟩))

/-- The `[:, :, [1,0,2]]` index: swap the first two coordinates of each point. -/
def permute102 (pts : PointClouds) : PointClouds :=
  pts.map (fun ps => ps.map (fun p => ⟨p.y, p.x, p.z⟩))

/-- The product `encoder_inputs * t[:, 2:, :]`: scale every coordinate of every point of
batch item `b` by the z-component of the translation column of `mats[b]`. -/
def scale_by_tz (pts : PointClouds) (mats : List Mat34) : PointClouds :=
  List.zipWith (fun ps m => ps.map (fun p =>
    ⟨p.x * m.t.z, p.y * m.t.z, p.z * m.t.z⟩)) pts mats

/-- The mix `pr * alpha + gt * (1 - alpha)` with `alpha` of shape `batch×1×1×1`:
batch item `b` is mixed pixelwise with coefficient `alpha[b]`. -/
def depth_map_mix_maps (pr gt : DepthMaps) (alpha : List ℚ) : DepthMaps :=
  List.zipWith (fun pa g =>
    List.zipWith (fun p gv => p * pa.1 + gv * (1 - pa.1)) pa.2 g)
    (alpha.zip pr) gt

/-- The data dictionary, restricted to the keys `compose_inputs` and the
trainers read.  `inputs_img` is `data['inputs']` when it holds an image batch,
`inputs_pc` is the same key when it holds a depth point cloud; `world_mat` is
what the spec-modelled `get_world_mat(data, transpose=None)` extracts, and
`camera_Rt` / `camera_K` what the spec-modelled
`get_camera_args(data, 'points.loc', 'points.scale')` returns. -/
structure BatchData (Img : Type) where
  inputs_img : Img
  inputs_pc : PointClouds
  inputs_mask : Masks
  inputs_depth : DepthMaps
  inputs_depth_pred : DepthMaps
  world_mat : List Mat34
  camera_Rt : List Mat34
  camera_K : List Mat3

/-- The exceptions `compose_inputs` can raise. -/
inductive ComposeError where
  | assertionError
  | notImplementedError
deriving DecidableEq

/-- The value bound to `encoder_inputs` at the return points of
`compose_inputs`: a depth-map batch, a `{'img':…, 'depth':…}` dictionary, the
local-feature dictionary `{None:…, 'world_mat':…, 'camera_mat':…}`, a point
cloud, or the `{None: point cloud}` dictionary. -/
inductive EncoderInput (Img : Type) where
  | dm (maps : DepthMaps)
  | imgDepth (img : Img) (maps : DepthMaps)
  | localDict (inner : EncoderInput Img) (world_mat : List Mat34)
      (camera_mat : List Mat3)
  | pc (points : PointClouds)
  | pcDict (points : PointClouds)
deriving DecidableEq

/-- The `raw_data` dictionary built by `compose_inputs`; keys it never wrote
are `none`. -/
structure RawData where
  gt_mask : Option Masks
  world_mat : Option (List Mat34)
  camera_mat : Option (List Mat3)
deriving DecidableEq

/-- The empty `raw_data = {}`. -/
def RawData.empty : RawData := ⟨none, none, none⟩

/-- The function `compose_inputs` (training.py lines 355–433).  `torch.rand` is modelled by
the explicit argument `alpha` (one coefficient per batch item); the in-place
`background_setting` calls are rendered by rebinding; `local` is renamed
`localFlag` (`local` is reserved in Lean). -/
def compose_inputs {Img : Type} (data : BatchData Img) (mode : String)
    (input_type : String) (use_gt_depth_map : Bool) (dmm : Bool)
    (with_img : Bool) (depth_pointcloud_transfer : Option String)
    (localFlag : Bool) (alpha : List ℚ) :
    Except ComposeError (EncoderInput Img × RawData) :=
  if ¬ (mode = "train" ∨ mode = "val" ∨ mode = "test") then
    .error .assertionError
  else
    let raw_data := RawData.empty
    if input_type = "depth_pred" then
      let gt_mask := data.inputs_mask
      let raw_data := { raw_data with gt_mask := some gt_mask }
      let encoder_maps :=
        if use_gt_depth_map then
          background_setting_b data.inputs_depth gt_mask 0
        else
          let pr_depth_maps := background_setting_b data.inputs_depth_pred gt_mask 0
          if dmm ∧ mode = "train" then
            let gt_depth_maps := background_setting_b data.inputs_depth gt_mask 0
            depth_map_mix_maps pr_depth_maps gt_depth_maps alpha
          else
            pr_depth_maps
      let encoder_inputs : EncoderInput Img :=
        if with_img then .imgDepth data.inputs_img encoder_maps
        else .dm encoder_maps
      if localFlag then
        let Rt := data.camera_Rt
        let K := data.camera_K
        .ok (.localDict encoder_inputs Rt K,
          { raw_data with world_mat := some Rt, camera_mat := some K })
      else
        .ok (encoder_inputs, raw_data)
    else if input_type = "depth_pointcloud" then
      let encoder_pts := data.inputs_pc
      match depth_pointcloud_transfer with
      | some tr =>
        if tr = "world" ∨ tr = "world_scale_model" then
          let e1 := permute102 encoder_pts
          let world_mat := data.world_mat
          let raw_data := { raw_data with world_mat := some world_mat }
          let e2 := transform_points3 e1 (world_mat.map (fun m => m.R.transpose))
          let e3 := if tr = "world_scale_model" then scale_by_tz e2 world_mat else e2
          .ok ((if localFlag then .pcDict e3 else .pc e3), raw_data)
        else if tr = "view" ∨ tr = "view_scale_model" then
          let e1 := permute102 encoder_pts
          if tr = "view_scale_model" then
            let world_mat := data.world_mat
            let raw_data := { raw_data with world_mat := some world_mat }
            let e2 := scale_by_tz e1 world_mat
            .ok ((if localFlag then .pcDict e2 else .pc e2), raw_data)
          else
            .ok ((if localFlag then .pcDict e1 else .pc e1), raw_data)
        else
          .error .notImplementedError
      | none =>
        .ok ((if localFlag then .pcDict encoder_pts else .pc encoder_pts), raw_data)
    else
      .error .notImplementedError

/-- The depth-map batch inside an `encoder_inputs` value, unwrapping the
`with_img` and `local` dictionaries. -/
def EncoderInput.depthComponent {Img : Type} : EncoderInput Img → Option DepthMaps
  | .dm maps => some maps
  | .imgDepth _ maps => some maps
  | .localDict inner _ _ => inner.depthComponent
  | .pc _ => none
  | .pcDict _ => none

/-- The point cloud inside an `encoder_inputs` value, unwrapping the `local`
dictionary. -/
def EncoderInput.pcComponent {Img : Type} : EncoderInput Img → Option PointClouds
  | .pc points => some points
  | .pcDict points => some points
  | _ => none

/-! ## `Phase1Trainer.compute_loss` (training.py lines 109–141) -/

/-- The data keys `Phase1Trainer.compute_loss` reads.  The mask is the float
tensor `inputs.mask` (`0.0` / `1.0` entries). -/
structure Phase1Data (Img : Type) where
  inputs : Img
  inputs_depth : DepthMaps
  inputs_mask : List (List ℚ)
  inputs_depth_min : List ℚ
  inputs_depth_max : List ℚ

/-- The pieces of the phase-1 model that `compute_loss` calls.
`predict_depth_maps` returns the `n_predicts` predicted depth-map batches;
element `i` of the outer list is the slice `pr_depth_maps[:, i]`, so the outer
length is `pr_depth_maps.size(1)`.  `fetch_minmax` is the batch of predicted
`(min, max)` pairs (`predicted_minmax[:, 0]` and `[:, 1]`). -/
structure Phase1Model (Img : Type) where
  predict_depth_maps : Img → List DepthMaps
  fetch_minmax : List (ℚ × ℚ)

/-- The trainer state `Phase1Trainer.compute_loss` depends on. -/
structure Phase1Trainer (Img : Type) where
  model : Phase1Model Img
  pred_minmax : Bool

/-- The term `(F.mse_loss(pr, gt, reduce=False) * gt_mask).sum()`: the sum over the
batch and the pixels of the squared errors weighted by the float mask. -/
def masked_sq_err (pr gt : DepthMaps) (mask : List (List ℚ)) : ℚ :=
  sumQ ((List.zipWith (fun prow grow =>
      List.zipWith (fun a b => (a - b) ^ 2) prow grow) pr gt).zipWith
    (fun sqrow mrow => sumQ (List.zipWith (fun s mv => s * mv) sqrow mrow)) mask)

/-- The loss `F.mse_loss(x, y)` with the default mean reduction over the batch. -/
def mse_mean (xs ys : List ℚ) : ℚ :=
  meanQ (List.zipWith (fun a b => (a - b) ^ 2) xs ys)

/-- The method `Phase1Trainer.compute_loss` (lines 109–141): starts from `loss = 0`, and
for each of the `n_predicts` predicted maps adds the mask-normalised squared
error only under the guard `mask_pix_count != 0.`; when `pred_minmax` it adds
the two weighted min/max regression terms. -/
def Phase1Trainer.compute_loss {Img : Type} (tr : Phase1Trainer Img)
    (data : Phase1Data Img) : ℚ :=
  let gt_depth_maps := data.inputs_depth
  let gt_mask := data.inputs_mask
  let pr_depth_maps := tr.model.predict_depth_maps data.inputs
  let mask_pix_count := sumQ (gt_mask.map sumQ)
  let loss := pr_depth_maps.foldl (fun acc pr_i =>
    if mask_pix_count ≠ 0 then
      acc + masked_sq_err pr_i gt_depth_maps gt_mask / mask_pix_count
    else acc) 0
  if tr.pred_minmax then
    let gt_min := data.inputs_depth_min
    let gt_max := data.inputs_depth_max
    let predicted_minmax := tr.model.fetch_minmax
    let w_minmax : ℚ := (224 ^ 2) / 2
    loss + w_minmax * mse_mean (predicted_minmax.map (fun p => p.1)) gt_min
      + w_minmax * mse_mean (predicted_minmax.map (fun p => p.2)) gt_max
  else
    loss

/-! ## `Phase2Trainer.compute_loss` (training.py lines 305–353) -/

/-- The decoder output `p_r`: a Bernoulli object carrying its logits and the
corresponding probabilities (`batch × n_points`). -/
structure BernoulliLogits where
  logits : List (List ℚ)
  probs : List (List ℚ)

/-- Per-point occupancy labels (`points.occ`, `batch × n_points`). -/
abbrev Occupancies := List (List ℚ)

/-- The pieces of the occupancy-with-depth model that
`Phase2Trainer.compute_loss` calls.  The encoder networks and the
distribution objects are abstract: `Code` is the type of latent codes `c`,
`Dist` the type of the distribution objects (`q_z`, `p0_z`), `Lat` the type of
sampled latents; `rsample` stands for one reparameterised draw. -/
structure OccDepthModel (Img Code Dist Lat : Type) where
  predict_depth_map : Img → DepthMaps
  encode : DepthMaps → Code
  infer_z : PointClouds → Occupancies → Code → Dist
  p0_z : Dist
  rsample : Dist → Lat
  decode : PointClouds → Lat → Code → BernoulliLogits

/-- The trainer state `Phase2Trainer.compute_loss` depends on. -/
structure Phase2Trainer (Img Code Dist Lat : Type) where
  model : OccDepthModel Img Code Dist Lat
  loss_type : String
  surface_loss_weight : ℚ
  loss_tolerance_episolon : ℚ
  sign_lambda : ℚ
  threshold : ℚ
  training_detach : Bool
  depth_map_mix : Bool

/-- The data keys `Phase2Trainer.compute_loss` reads. -/
structure Phase2Data (Img : Type) where
  points : PointClouds
  points_occ : Occupancies
  inputs : Img
  inputs_mask : Masks
  inputs_depth : DepthMaps

/-- The method `Phase2Trainer.compute_loss` (lines 305–353).  `kl_divergence` is
`torch.distributions.kl_divergence` (`batch × latent-dim` table),
`get_occ_loss` and `occ_loss_postprocess` are the per-point loss functions
from `im2mesh.onet.loss_functions` (not among the sources); all three are
abstract parameters.  `torch.rand` is the explicit argument `alpha`.  The
`training_detach` branch (lines 319–323) only decides whether the depth
prediction runs under `torch.no_grad()`; the predicted value is identical, so
the branch does not appear in the value-level embedding (it is modelled for
the gradient flow in the `Phase2Autograd` section below). -/
def Phase2Trainer.compute_loss {Img Code Dist Lat : Type}
    (kl_divergence : Dist → Dist → List (List ℚ))
    (get_occ_loss : List (List ℚ) → Occupancies → String → List (List ℚ))
    (occ_loss_postprocess : List (List ℚ) → Occupancies → List (List ℚ) →
      ℚ → ℚ → ℚ → ℚ → List (List ℚ))
    (tr : Phase2Trainer Img Code Dist Lat) (data : Phase2Data Img)
    (alpha : List ℚ) : ℚ :=
  let p := data.points
  let occ := data.points_occ
  let gt_mask := data.inputs_mask
  let pr0 := tr.model.predict_depth_map data.inputs
  let pr1 := background_setting_b pr0 gt_mask 0
  let pr_depth_maps :=
    if tr.depth_map_mix then
      let gt_depth_maps := background_setting_b data.inputs_depth gt_mask 0
      depth_map_mix_maps pr1 gt_depth_maps alpha
    else pr1
  let c := tr.model.encode pr_depth_maps
  let q_z := tr.model.infer_z p occ c
  let z := tr.model.rsample q_z
  let kl := (kl_divergence q_z tr.model.p0_z).map sumQ
  let loss := meanQ kl
  let p_r := tr.model.decode p z c
  let loss_i := get_occ_loss p_r.logits occ tr.loss_type
  let loss_i2 := occ_loss_postprocess loss_i occ p_r.probs
    tr.loss_tolerance_episolon tr.sign_lambda tr.threshold tr.surface_loss_weight
  loss + meanQ (loss_i2.map sumQ)

/-! ## Gradient flow of a phase-2 training step (training.py lines 182–184,
186–197, 319–323)

The autograd bookkeeping of the framework is modelled explicitly: a parameter
carries its value, its `requires_grad` flag and its accumulated gradient.
`loss.backward()` delivers a gradient to a parameter only if the parameter
requires grad and its use was recorded on the tape, and `optimizer.step()`
moves only parameters that received a gradient. -/

/-- One framework parameter: value, `requires_grad` flag, gradient slot. -/
structure ParamState where
  value : ℚ
  requires_grad : Bool
  grad : Option ℚ
deriving DecidableEq

/-- The parameters of the phase-2 model, split into the phase-1 depth
predictor (`model.depth_predictor`, `None` when absent) and the rest. -/
structure NetParams where
  depth_predictor : Option (List ParamState)
  rest : List ParamState
deriving DecidableEq

/-- Lines 182–184 of `Phase2Trainer.__init__`: when `training_detach` and the
model has a depth predictor, set `requires_grad = False` on every parameter of
`model.depth_predictor`. -/
def phase2_init_detach (training_detach : Bool) (net : NetParams) : NetParams :=
  if training_detach then
    match net.depth_predictor with
    | some ps => { net with
        depth_predictor := some (ps.map (fun p => { p with requires_grad := false })) }
    | none => net
  else net

/-- Lines 319–323 of `Phase2Trainer.compute_loss`: the depth predictor runs
inside `torch.no_grad()` exactly when `training_detach`, so its use is on the
autograd tape exactly when `training_detach` is false. -/
def depth_predictor_tracked (training_detach : Bool) : Bool := ! training_detach

/-- The call `optimizer.zero_grad()` on one parameter. -/
def zero_grad1 (p : ParamState) : ParamState := { p with grad := none }

/-- The call `loss.backward()` on one parameter: the gradient `g` is written only if
the parameter requires grad and its use was recorded on the tape. -/
def backward1 (tracked : Bool) (g : ℚ) (p : ParamState) : ParamState :=
  if p.requires_grad && tracked then { p with grad := some g } else p

/-- The call `loss.backward()` over a parameter list; `gradOf i` is the (abstract)
gradient the loss would deliver to the `i`-th parameter. -/
def backwardAll (tracked : Bool) (gradOf : ℕ → ℚ) : ℕ → List ParamState → List ParamState
  | _, [] => []
  | i, p :: ps => backward1 tracked (gradOf i) p :: backwardAll tracked gradOf (i + 1) ps

/-- The call `optimizer.step()` on one parameter: only parameters holding a gradient
move. -/
def step1 (lr : ℚ) (p : ParamState) : ParamState :=
  match p.grad with
  | some g => { p with value := p.value - lr * g }
  | none => p

/-- The method `Phase2Trainer.train_step` (lines 186–197) as it acts on the parameter
store: `optimizer.zero_grad()`, then `compute_loss` + `loss.backward()` (the
depth predictor's use is tracked per `depth_predictor_tracked`), then
`optimizer.step()`. -/
def phase2_train_step (training_detach : Bool) (lr : ℚ)
    (gradD gradR : ℕ → ℚ) (net : NetParams) : NetParams :=
  let net1 : NetParams :=
    ⟨net.depth_predictor.map (List.map zero_grad1), net.rest.map zero_grad1⟩
  let net2 : NetParams :=
    ⟨net1.depth_predictor.map
        (backwardAll (depth_predictor_tracked training_detach) gradD 0),
      backwardAll true gradR 0 net1.rest⟩
  ⟨net2.depth_predictor.map (List.map (step1 lr)), net2.rest.map (step1 lr)⟩

/-! ## `Resnet18_Local` (feature_extractor.py lines 58–136) -/

/-- The `Resnet18_Local` module.  `Img` is the type of image batches, `F3` the
type of the global ResNet feature, `FMap` the type of the intermediate feature
maps `f2`/`f1`, `C3o` the output type of `fc3`.  `features` is the pretrained
ResNet-18 backbone; `fc3` the optional linear head; `f2_conv` / `f1_conv` the
1×1 `Conv1d` layers acting on one batch item (`channels × n_pts`). -/
structure Resnet18_Local (Img F3 FMap C3o : Type) where
  normalize : Bool
  features : Img → F3 × FMap × FMap
  fc3 : F3 → C3o
  f2_conv : List (List ℚ) → List (List ℚ)
  f1_conv : List (List ℚ) → List (List ℚ)

/-- The method `Resnet18_Local.forward` (lines 81–107).  `normalize_imagenet`, `F.relu`
on feature maps and `F.grid_sample` are abstract framework parameters;
`grid_sample` absorbs the `unsqueeze(1)` / `squeeze(2)` shape bookkeeping and
returns the sampled features as `batch × channels × n_pts`; `transpose(1, 2)`
is `List.transpose` on each batch item. -/
def Resnet18_Local.forward {Img F3 FMap C3o : Type}
    (m : Resnet18_Local Img F3 FMap C3o)
    (normalize_imagenet : Img → Img) (relu : FMap → FMap)
    (grid_sample : FMap → List (List Vec2) → List (List (List ℚ)))
    (x : Img) (pts : PointClouds) (world_mat : List Mat34)
    (camera_mat : List Mat3) :
    C3o × List (List (List ℚ)) × List (List (List ℚ)) :=
  let x := if m.normalize then normalize_imagenet x else x
  let f := m.features x
  let f3 := f.1
  let f2 := f.2.1
  let f1 := f.2.2
  let pts2 := transform_points pts world_mat
  let points_img := project_to_camera pts2 camera_mat
  let f2s := grid_sample (relu f2) points_img
  let f2o := (f2s.map m.f2_conv).map List.transpose
  let f1s := grid_sample (relu f1) points_img
  let f1o := (f1s.map m.f1_conv).map List.transpose
  (m.fc3 f3, f2o, f1o)

/-- The method `Resnet18_Local.encode_first_step` (lines 109–114): normalize, then run
the backbone. -/
def Resnet18_Local.encode_first_step {Img F3 FMap C3o : Type}
    (m : Resnet18_Local Img F3 FMap C3o)
    (normalize_imagenet : Img → Img) (x : Img) : F3 × FMap × FMap :=
  let x := if m.normalize then normalize_imagenet x else x
  m.features x

/-- The method `Resnet18_Local.encode_second_step` (lines 116–136): the per-point
sampling pipeline on precomputed backbone features. -/
def Resnet18_Local.encode_second_step {Img F3 FMap C3o : Type}
    (m : Resnet18_Local Img F3 FMap C3o) (relu : FMap → FMap)
    (grid_sample : FMap → List (List Vec2) → List (List (List ℚ)))
    (f3 : F3) (f2 f1 : FMap) (pts : PointClouds) (world_mat : List Mat34)
    (camera_mat : List Mat3) :
    C3o × List (List (List ℚ)) × List (List (List ℚ)) :=
  let pts2 := transform_points pts world_mat
  let points_img := project_to_camera pts2 camera_mat
  let f2s := grid_sample (relu f2) points_img
  let f2o := (f2s.map m.f2_conv).map List.transpose
  let f1s := grid_sample (relu f1) points_img
  let f1o := (f1s.map m.f1_conv).map List.transpose
  (m.fc3 f3, f2o, f1o)

/-! ## `classify/dataset.py` -/

/-- One step of the `torchvision.transforms.Compose` pipelines built in
`classify/dataset.py`. -/
inductive TransformStep where
  | resize (size : ℕ)
  | toTensor
deriving DecidableEq

/-- The constant `IMG_SIZE = 224` (dataset.py line 5). -/
def IMG_SIZE : ℕ := 224

/-- The inputs-field constructors `classify/dataset.py` can build, with the
arguments the source passes. -/
inductive InputsField where
  | imagesField (folder_name : String) (transform : List TransformStep)
      (with_camera : Bool) (random_view : Bool)
  | imagesWithDepthField (img_folder depth_folder mask_folder : String)
      (transform : List TransformStep)
      (with_camera random_view absolute_depth : Bool)
  | depthPointCloudField (first_arg : Option String) (folder_name : String)
      (transform : List TransformStep) (random_view with_camera : Bool)
      (img_folder_name : String)
deriving DecidableEq

/-- A field of the returned dataset. -/
inductive DatasetField where
  | inputs (f : InputsField)
  | index
  | category
deriving DecidableEq

/-- The `Shapes3dDataset` value `get_dataset` returns (categories is always
`None` and is omitted). -/
structure Shapes3dDataset where
  dataset_root : String
  fields : List (String × DatasetField)
  split : String
deriving DecidableEq

/-- The function `get_img_inputs_field` (dataset.py lines 7–25). -/
def get_img_inputs_field (mode : String) : InputsField :=
  let transform := [TransformStep.resize IMG_SIZE, TransformStep.toTensor]
  let with_camera := false
  let random_view := if mode = "train" then true else false
  .imagesField "img_choy2016" transform with_camera random_view

/-- The function `get_img_with_depth_input_field` (dataset.py lines 27–46). -/
def get_img_with_depth_input_field (mode : String) (absolute_depth : Bool) :
    InputsField :=
  let transform := [TransformStep.resize IMG_SIZE, TransformStep.toTensor]
  let with_camera := false
  let random_view := if mode = "train" then true else false
  .imagesWithDepthField "img" "depth" "mask" transform with_camera random_view
    absolute_depth

/-- The function `get_depth_pointcloud_field` (dataset.py lines 48–64). -/
def get_depth_pointcloud_field (mode : String) : InputsField :=
  let random_view := if mode = "train" then true else false
  let transform : List TransformStep := []
  .depthPointCloudField none "depth_pointcloud" transform random_view true "img"

/-- The function `get_dataset` (dataset.py lines 67–86).  For an `input_type` outside the
three handled values the Python body leaves `inputs_field` unbound and raises
`NameError` on line 77; that case is `none`. -/
def get_dataset (dataset_root mode : String) (input_type : String)
    (absolute_depth : Bool) : Option Shapes3dDataset :=
  let inputs_field :=
    if input_type = "img" then some (get_img_inputs_field mode)
    else if input_type = "img_with_depth" then
      some (get_img_with_depth_input_field mode absolute_depth)
    else if input_type = "depth_pointcloud" then
      some (get_depth_pointcloud_field mode)
    else none
  inputs_field.map (fun f =>
    { dataset_root := dataset_root
      fields := [("inputs", DatasetField.inputs f), ("idx", DatasetField.index),
        ("category", DatasetField.category)]
      split := mode })

/-! ## Theorems -/

/-- C1: for every data batch, `Phase2Trainer.compute_loss` returns the
variational objective: the mean over the batch of the KL divergence from the
posterior `q_z` (inferred by `infer_z` from the points, the occupancies and
the code `c`) to the prior `p0_z`, summed over the latent dimension, plus the
per-point occupancy loss (`get_occ_loss` on the decoder logits, post-processed
by `occ_loss_postprocess`) summed over the points and averaged over the
batch. -/
theorem phase2_compute_loss_is_variational_objective {Img Code Dist Lat : Type}
    (kl_divergence : Dist → Dist → List (List ℚ))
    (get_occ_loss : List (List ℚ) → Occupancies → String → List (List ℚ))
    (occ_loss_postprocess : List (List ℚ) → Occupancies → List (List ℚ) →
      ℚ → ℚ → ℚ → ℚ → List (List ℚ))
    (tr : Phase2Trainer Img Code Dist Lat) (data : Phase2Data Img)
    (alpha : List ℚ) :
    Phase2Trainer.compute_loss kl_divergence get_occ_loss occ_loss_postprocess
      tr data alpha =
      (let pr1 := background_setting_b
        (tr.model.predict_depth_map data.inputs) data.inputs_mask 0
      let pr_depth_maps :=
        if tr.depth_map_mix then
          depth_map_mix_maps pr1
            (background_setting_b data.inputs_depth data.inputs_mask 0) alpha
        else pr1
      let c := tr.model.encode pr_depth_maps
      let q_z := tr.model.infer_z data.points data.points_occ c
      let p_r := tr.model.decode data.points (tr.model.rsample q_z) c
      meanQ ((kl_divergence q_z tr.model.p0_z).map sumQ) +
        meanQ ((occ_loss_postprocess
          (get_occ_loss p_r.logits data.points_occ tr.loss_type)
          data.points_occ p_r.probs tr.loss_tolerance_episolon tr.sign_lambda
          tr.threshold tr.surface_loss_weight).map sumQ)) :=
  rfl

/-- C5: `Resnet18_Local.forward` performs the camera-projection pipeline: it
transforms the query points by `world_mat` (`transform_points`), projects them
to image coordinates with `camera_mat` (`project_to_camera`), samples the
ReLU-activated feature maps `f2` and `f1` at the projected positions with
`grid_sample` followed by the 1×1 convolutions (and the `(1, 2)` transpose),
and returns `fc3` of the global feature `f3` together with the two per-point
feature tensors. -/
theorem resnet18_local_forward_camera_pipeline {Img F3 FMap C3o : Type}
    (m : Resnet18_Local Img F3 FMap C3o) (normalize_imagenet : Img → Img)
    (relu : FMap → FMap)
    (grid_sample : FMap → List (List Vec2) → List (List (List ℚ)))
    (x : Img) (pts : PointClouds) (world_mat : List Mat34)
    (camera_mat : List Mat3) :
    m.forward normalize_imagenet relu grid_sample x pts world_mat camera_mat =
      (m.fc3 (m.features (if m.normalize then normalize_imagenet x else x)).1,
       ((grid_sample
          (relu (m.features (if m.normalize then normalize_imagenet x else x)).2.1)
          (project_to_camera (transform_points pts world_mat) camera_mat)).map
         m.f2_conv).map List.transpose,
       ((grid_sample
          (relu (m.features (if m.normalize then normalize_imagenet x else x)).2.2)
          (project_to_camera (transform_points pts world_mat) camera_mat)).map
         m.f1_conv).map List.transpose) :=
  rfl

/-- C9: `Resnet18_Local.forward` returns the same triple as the two-step path
`encode_second_step` applied to the components of `encode_first_step`. -/
theorem resnet18_local_forward_eq_two_step {Img F3 FMap C3o : Type}
    (m : Resnet18_Local Img F3 FMap C3o) (normalize_imagenet : Img → Img)
    (relu : FMap → FMap)
    (grid_sample : FMap → List (List Vec2) → List (List (List ℚ)))
    (x : Img) (pts : PointClouds) (world_mat : List Mat34)
    (camera_mat : List Mat3) :
    m.forward normalize_imagenet relu grid_sample x pts world_mat camera_mat =
      m.encode_second_step relu grid_sample
        (m.encode_first_step normalize_imagenet x).1
        (m.encode_first_step normalize_imagenet x).2.1
        (m.encode_first_step normalize_imagenet x).2.2
        pts world_mat camera_mat :=
  rfl

/-- An untracked `backward1` never touches a parameter. -/
theorem backward1_untracked (g : ℚ) (p : ParamState) :
    backward1 false g p = p := by
  simp [backward1]

/-- An untracked backward pass leaves every parameter unchanged. -/
theorem backwardAll_untracked (gradOf : ℕ → ℚ) :
    ∀ (i : ℕ) (ps : List ParamState), backwardAll false gradOf i ps = ps := by
  intro i ps
  induction ps generalizing i with
  | nil => rfl
  | cons p ps ih => simp [backwardAll, backward1_untracked, ih]

/-- C6: with `training_detach` and a present depth predictor,
`Phase2Trainer.__init__` clears `requires_grad` on every depth-predictor
parameter, and a phase-2 `train_step` (whose `compute_loss` keeps the depth
predictor off the tape, `depth_predictor_tracked true = false`) leaves the
value of every depth-predictor parameter unchanged. -/
theorem phase2_detach_freezes_depth_predictor (ps rest : List ParamState)
    (lr : ℚ) (gradD gradR : ℕ → ℚ) :
    ((phase2_init_detach true ⟨some ps, rest⟩).depth_predictor.map
        (fun l => l.map (fun p => p.requires_grad)) =
      some (ps.map (fun _ => false)))
    ∧ ((phase2_train_step true lr gradD gradR
          (phase2_init_detach true ⟨some ps, rest⟩)).depth_predictor.map
        (fun l => l.map ParamState.value) =
      some (ps.map ParamState.value)) := by
  constructor
  · simp [phase2_init_detach, List.map_map, Function.comp_def, List.map_const']
  · simp [phase2_init_detach, phase2_train_step, depth_predictor_tracked,
      backwardAll_untracked, List.map_map, step1, zero_grad1]

/-- C7: `get_dataset` dispatches on `input_type` — `ImagesField` for `'img'`,
`ImagesWithDepthField` (forwarding `absolute_depth`) for `'img_with_depth'`,
`DepthPointCloudField` for `'depth_pointcloud'` — with `random_view` true
exactly when `mode = 'train'` in every constructor, and every returned
dataset's fields are exactly `'inputs'`, `'idx'`, `'category'`. -/
theorem get_dataset_dispatch_and_fields (dataset_root mode : String)
    (absolute_depth : Bool) :
    (get_dataset dataset_root mode "img" absolute_depth =
      some ⟨dataset_root,
        [("inputs", DatasetField.inputs (InputsField.imagesField "img_choy2016"
          [TransformStep.resize IMG_SIZE, TransformStep.toTensor] false
          (decide (mode = "train")))),
         ("idx", DatasetField.index), ("category", DatasetField.category)],
        mode⟩)
    ∧ (get_dataset dataset_root mode "img_with_depth" absolute_depth =
      some ⟨dataset_root,
        [("inputs", DatasetField.inputs (InputsField.imagesWithDepthField
          "img" "depth" "mask"
          [TransformStep.resize IMG_SIZE, TransformStep.toTensor] false
          (decide (mode = "train")) absolute_depth)),
         ("idx", DatasetField.index), ("category", DatasetField.category)],
        mode⟩)
    ∧ (get_dataset dataset_root mode "depth_pointcloud" absolute_depth =
      some ⟨dataset_root,
        [("inputs", DatasetField.inputs (InputsField.depthPointCloudField
          none "depth_pointcloud" [] (decide (mode = "train")) true "img")),
         ("idx", DatasetField.index), ("category", DatasetField.category)],
        mode⟩)
    ∧ (∀ (input_type : String) (ds : Shapes3dDataset),
        get_dataset dataset_root mode input_type absolute_depth = some ds →
        ds.fields.map Prod.fst = ["inputs", "idx", "category"]) := by
  refine ⟨?_, ?_, ?_, ?_⟩
  · by_cases h : mode = "train" <;>
      simp [get_dataset, get_img_inputs_field, h]
  · by_cases h : mode = "train" <;>
      simp [get_dataset, get_img_with_depth_input_field, h]
  · by_cases h : mode = "train" <;>
      simp [get_dataset, get_depth_pointcloud_field, h]
  · intro input_type ds hds
    simp only [get_dataset] at hds
    split at hds <;> [skip; split at hds] <;>
      [skip; skip; split at hds] <;> simp at hds <;>
      subst hds <;> rfl

/-- A list of zeros sums to zero. -/
theorem sumQ_eq_zero_of_all_zero (l : List ℚ) (h : ∀ v ∈ l, v = 0) :
    sumQ l = 0 := by
  induction l with
  | nil => rfl
  | cons a l ih =>
    have ha : a = 0 := h a (by simp)
    have ih2 := ih (fun v hv => h v (by simp [hv]))
    simp [sumQ, List.foldr] at ih2 ⊢
    simp [ha, ih2]

/-- C10: in `Phase1Trainer.compute_loss` the masked depth term is added only
under the guard `mask_pix_count != 0`; with an all-zero mask and
`pred_minmax = false` the returned loss is `0` and the division by
`mask_pix_count` is never taken. -/
theorem phase1_compute_loss_zero_mask {Img : Type} (tr : Phase1Trainer Img)
    (data : Phase1Data Img)
    (hmask : ∀ row ∈ data.inputs_mask, ∀ v ∈ row, v = 0)
    (hpm : tr.pred_minmax = false) :
    tr.compute_loss data = 0 := by
  have hcount : sumQ (data.inputs_mask.map sumQ) = 0 := by
    apply sumQ_eq_zero_of_all_zero
    intro v hv
    rcases List.mem_map.mp hv with ⟨row, hrow, hrv⟩
    exact hrv ▸ sumQ_eq_zero_of_all_zero row (hmask row hrow)
  unfold Phase1Trainer.compute_loss
  rw [hpm]
  simp only [hcount, ne_eq, not_true_eq_false, if_false, Bool.false_eq_true]
  induction tr.model.predict_depth_maps data.inputs with
  | nil => rfl
  | cons m ms ih => simp [List.foldl, ih]

/-- C4: `compose_inputs` fails exactly on unsupported selections — an
`AssertionError` for any mode outside `('train', 'val', 'test')`, a
`NotImplementedError` for any `input_type` other than `'depth_pred'` /
`'depth_pointcloud'`, and, for `'depth_pointcloud'`, a `NotImplementedError`
for any non-`None` transfer outside the four supported names; every supported
combination returns an `(encoder_inputs, raw_data)` pair. -/
theorem compose_inputs_error_cases {Img : Type} (data : BatchData Img)
    (mode input_type : String) (use_gt_depth_map dmm with_img localFlag : Bool)
    (dpt : Option String) (alpha : List ℚ) :
    (¬ (mode = "train" ∨ mode = "val" ∨ mode = "test") →
      compose_inputs data mode input_type use_gt_depth_map dmm with_img dpt
        localFlag alpha = .error .assertionError)
    ∧ ((mode = "train" ∨ mode = "val" ∨ mode = "test") →
      input_type ≠ "depth_pred" → input_type ≠ "depth_pointcloud" →
      compose_inputs data mode input_type use_gt_depth_map dmm with_img dpt
        localFlag alpha = .error .notImplementedError)
    ∧ (∀ t : String, (mode = "train" ∨ mode = "val" ∨ mode = "test") →
      t ≠ "world" → t ≠ "world_scale_model" → t ≠ "view" →
      t ≠ "view_scale_model" →
      compose_inputs data mode "depth_pointcloud" use_gt_depth_map dmm with_img
        (some t) localFlag alpha = .error .notImplementedError)
    ∧ ((mode = "train" ∨ mode = "val" ∨ mode = "test") →
      ∃ out, compose_inputs data mode "depth_pred" use_gt_depth_map dmm
        with_img dpt localFlag alpha = .ok out)
    ∧ ((mode = "train" ∨ mode = "val" ∨ mode = "test") →
      (dpt = none ∨ dpt = some "world" ∨ dpt = some "world_scale_model" ∨
        dpt = some "view" ∨ dpt = some "view_scale_model") →
      ∃ out, compose_inputs data mode "depth_pointcloud" use_gt_depth_map dmm
        with_img dpt localFlag alpha = .ok out) := by
  refine ⟨?_, ?_, ?_, ?_, ?_⟩
  · intro h
    simp [compose_inputs, h]
  · intro hm h1 h2
    simp only [compose_inputs, if_neg (not_not_intro hm)]
    simp [h1, h2]
  · intro t hm h1 h2 h3 h4
    simp only [compose_inputs, if_neg (not_not_intro hm)]
    simp [h1, h2, h3, h4]
  · intro hm
    simp only [compose_inputs, if_neg (not_not_intro hm)]
    simp only [String.reduceEq, if_true, reduceIte]
    split <;> exact ⟨_, rfl⟩
  · intro hm hd
    simp only [compose_inputs, if_neg (not_not_intro hm)]
    rcases hd with h | h | h | h | h <;> subst h <;>
      simp only [String.reduceEq, or_false, false_or, or_true, true_or,
        reduceIte] <;> exact ⟨_, rfl⟩

/-- C2: for input type `'depth_pointcloud'`, `compose_inputs` applies the
transfer selected by `depth_pointcloud_transfer` to the point cloud it returns
as encoder input: `'world'` permutes each point by `[1,0,2]` and rotates by
the transpose of the rotation block of the world matrix; `'world_scale_model'`
additionally scales by the z-component of the translation column; `'view'`
only permutes; `'view_scale_model'` permutes and scales; `None` passes the
points through unchanged. -/
theorem compose_inputs_depth_pointcloud_transfers {Img : Type}
    (data : BatchData Img) (mode : String)
    (use_gt_depth_map dmm with_img localFlag : Bool) (alpha : List ℚ)
    (hm : mode = "train" ∨ mode = "val" ∨ mode = "test") :
    ((compose_inputs data mode "depth_pointcloud" use_gt_depth_map dmm with_img
        (some "world") localFlag alpha).map (fun r => r.1.pcComponent) =
      .ok (some (transform_points3 (permute102 data.inputs_pc)
        (data.world_mat.map (fun m => m.R.transpose)))))
    ∧ ((compose_inputs data mode "depth_pointcloud" use_gt_depth_map dmm
        with_img (some "world_scale_model") localFlag alpha).map
          (fun r => r.1.pcComponent) =
      .ok (some (scale_by_tz (transform_points3 (permute102 data.inputs_pc)
        (data.world_mat.map (fun m => m.R.transpose))) data.world_mat)))
    ∧ ((compose_inputs data mode "depth_pointcloud" use_gt_depth_map dmm
        with_img (some "view") localFlag alpha).map
          (fun r => r.1.pcComponent) =
      .ok (some (permute102 data.inputs_pc)))
    ∧ ((compose_inputs data mode "depth_pointcloud" use_gt_depth_map dmm
        with_img (some "view_scale_model") localFlag alpha).map
          (fun r => r.1.pcComponent) =
      .ok (some (scale_by_tz (permute102 data.inputs_pc) data.world_mat)))
    ∧ ((compose_inputs data mode "depth_pointcloud" use_gt_depth_map dmm
        with_img none localFlag alpha).map (fun r => r.1.pcComponent) =
      .ok (some data.inputs_pc)) := by
  refine ⟨?_, ?_, ?_, ?_, ?_⟩ <;>
    simp only [compose_inputs, if_neg (not_not_intro hm)] <;>
    cases localFlag <;> rfl

/-- A concrete one-item batch used by the concrete instances below: one masked
pixel, ground-truth depth 4, predicted depth 2, and a permutation-like world
matrix. -/
def exBatchData : BatchData Unit :=
  { inputs_img := ()
    inputs_pc := [[⟨1, 2, 3⟩]]
    inputs_mask := [[true]]
    inputs_depth := [[4]]
    inputs_depth_pred := [[2]]
    world_mat := [⟨⟨⟨0, 1, 0⟩, ⟨1, 0, 0⟩, ⟨0, 0, 1⟩⟩, ⟨7, 8, 9⟩⟩]
    camera_Rt := [⟨⟨⟨1, 0, 0⟩, ⟨0, 1, 0⟩, ⟨0, 0, 1⟩⟩, ⟨0, 0, 0⟩⟩]
    camera_K := [⟨⟨1, 0, 0⟩, ⟨0, 1, 0⟩, ⟨0, 0, 1⟩⟩] }

/-- C3 counterexample: with `depth_map_mix` enabled but `mode = 'val'`,
`compose_inputs` returns the masked predicted map `[[2]]`, not the mix of the
masked maps (which would be `[[3]]` at `alpha = 1/2`): the mixing branch also
requires `mode = 'train'`. -/
theorem compose_inputs_mix_ignored_outside_train :
    (compose_inputs exBatchData "val" "depth_pred" false true false none false
        [1/2]).map (fun r => r.1.depthComponent) = .ok (some [[2]])
    ∧ depth_map_mix_maps
        (background_setting_b exBatchData.inputs_depth_pred
          exBatchData.inputs_mask 0)
        (background_setting_b exBatchData.inputs_depth
          exBatchData.inputs_mask 0) [1/2] = [[3]]
    ∧ ([[2]] : DepthMaps) ≠ [[3]] := by
  refine ⟨by with_unfolding_all decide, by with_unfolding_all decide,
    by decide⟩

/-- C3 (amended): for input type `'depth_pred'`, `compose_inputs` always
applies `background_setting` with the ground-truth mask to the depth map it
returns as encoder input — the ground-truth map when `use_gt_depth_map`, the
predicted map otherwise — and when `depth_map_mix` is enabled *and* the mode
is `'train'` it masks the ground-truth map as well and returns the mix of the
two masked maps. -/
theorem compose_inputs_depth_pred_masking {Img : Type} (data : BatchData Img)
    (mode : String) (use_gt_depth_map dmm with_img localFlag : Bool)
    (dpt : Option String) (alpha : List ℚ)
    (hm : mode = "train" ∨ mode = "val" ∨ mode = "test") :
    (use_gt_depth_map = true →
      (compose_inputs data mode "depth_pred" use_gt_depth_map dmm with_img dpt
          localFlag alpha).map (fun r => r.1.depthComponent) =
        .ok (some (background_setting_b data.inputs_depth data.inputs_mask 0)))
    ∧ (use_gt_depth_map = false → dmm = true → mode = "train" →
      (compose_inputs data mode "depth_pred" use_gt_depth_map dmm with_img dpt
          localFlag alpha).map (fun r => r.1.depthComponent) =
        .ok (some (depth_map_mix_maps
          (background_setting_b data.inputs_depth_pred data.inputs_mask 0)
          (background_setting_b data.inputs_depth data.inputs_mask 0) alpha)))
    ∧ (use_gt_depth_map = false → ¬ (dmm = true ∧ mode = "train") →
      (compose_inputs data mode "depth_pred" use_gt_depth_map dmm with_img dpt
          localFlag alpha).map (fun r => r.1.depthComponent) =
        .ok (some (background_setting_b data.inputs_depth_pred
          data.inputs_mask 0))) := by
  refine ⟨?_, ?_, ?_⟩
  · intro hu
    subst hu
    simp only [compose_inputs, if_neg (not_not_intro hm)]
    cases with_img <;> cases localFlag <;> rfl
  · intro hu hd hmode
    subst hu
    subst hd
    subst hmode
    simp only [compose_inputs, if_neg (not_not_intro hm)]
    cases with_img <;> cases localFlag <;> rfl
  · intro hu hnot
    subst hu
    simp only [compose_inputs, if_neg (not_not_intro hm), if_neg hnot]
    cases with_img <;> cases localFlag <;> rfl

/-- Membership in a `zipWith` zipped with the zip of its sources determines
the first component. -/
theorem mem_zipWith_zip {α β γ : Type} (f : α → β → γ) :
    ∀ (as : List α) (bs : List β) (x : γ × α × β),
      x ∈ (List.zipWith f as bs).zip (as.zip bs) → x.1 = f x.2.1 x.2.2 := by
  intro as
  induction as with
  | nil => intro bs x h; simp at h
  | cons a as ih =>
    intro bs x h
    cases bs with
    | nil => simp at h
    | cons b bs =>
      rw [List.zipWith_cons_cons, List.zip_cons_cons] at h
      rcases List.mem_cons.mp h with h | h
      · subst h; rfl
      · exact ih bs x h

/-- C8 counterexample: `depth_to_L` mutates the tensor passed as
`pr_depth_map` — on `[1, 2, 5]` with mask `[true, true, false]` the caller's
tensor ends as `[1, 2, 2]` (the background pixel is set to the masked
maximum), not as the original `[1, 2, 5]`. -/
theorem depth_to_L_mutates_input :
    (depth_to_L [1, 2, 5] [true, true, false]).2 ≠ [1, 2, 5]
    ∧ (depth_to_L [1, 2, 5] [true, true, false]).2 = [1, 2, 2] :=
  ⟨by with_unfolding_all decide, by with_unfolding_all decide⟩

/-- C8 (amended): `depth_to_L` leaves the caller's tensor equal to the input
with its background pixels set to the masked maximum, and returns that masked
tensor affinely rescaled: every masked pixel `p` becomes
`(p - min) / (max - min)` (so the masked minimum maps to 0 and the masked
maximum to 1) and every background pixel becomes 1. -/
theorem depth_to_L_masked_rescale (dm : List ℚ) (mask : List Bool)
    (hne : listMax (maskedVals dm mask) ≠ listMin (maskedVals dm mask)) :
    ((depth_to_L dm mask).2 =
      background_setting1 dm mask (listMax (maskedVals dm mask)))
    ∧ ((depth_to_L dm mask).1 =
      (background_setting1 dm mask (listMax (maskedVals dm mask))).map
        (fun v => (v - listMin (maskedVals dm mask)) /
          (listMax (maskedVals dm mask) - listMin (maskedVals dm mask))))
    ∧ (∀ x ∈ ((depth_to_L dm mask).1).zip (dm.zip mask),
        (x.2.2 = true → x.1 = (x.2.1 - listMin (maskedVals dm mask)) /
          (listMax (maskedVals dm mask) - listMin (maskedVals dm mask)))
        ∧ (x.2.2 = false → x.1 = 1)) := by
  refine ⟨rfl, rfl, ?_⟩
  intro x hx
  have h1 : (depth_to_L dm mask).1 = List.zipWith
      (fun p b => ((if b then p else listMax (maskedVals dm mask)) -
          listMin (maskedVals dm mask)) /
        (listMax (maskedVals dm mask) - listMin (maskedVals dm mask)))
      dm mask := by
    simp [depth_to_L, background_setting1, List.map_zipWith]
  rw [h1] at hx
  have hx1 := mem_zipWith_zip _ dm mask x hx
  constructor
  · intro hb
    rw [hx1, hb]
    simp
  · intro hb
    rw [hx1, hb]
    simp only [Bool.false_eq_true, if_false]
    exact div_self (sub_ne_zero_of_ne hne)

/-- A concrete phase-1 trainer (no min/max head used). -/
def exPhase1Trainer : Phase1Trainer Unit :=
  { model := { predict_depth_maps := fun _ => [[[5, 7]]], fetch_minmax := [(1, 2)] }
    pred_minmax := false }

/-- A concrete phase-1 batch whose mask is entirely zero. -/
def exPhase1Data : Phase1Data Unit :=
  { inputs := (), inputs_depth := [[1, 2]], inputs_mask := [[0, 0]]
    inputs_depth_min := [0], inputs_depth_max := [3] }

/-- Witness for C10 at the all-zero mask batch. -/
theorem phase1_compute_loss_zero_mask_witness :
    (∀ row ∈ exPhase1Data.inputs_mask, ∀ v ∈ row, v = 0)
    ∧ exPhase1Trainer.pred_minmax = false
    ∧ exPhase1Trainer.compute_loss exPhase1Data = 0 :=
  ⟨by decide, rfl,
    phase1_compute_loss_zero_mask exPhase1Trainer exPhase1Data (by decide) rfl⟩

/-- Witness for C2 at the `'view'` transfer on the concrete batch. -/
theorem compose_inputs_depth_pointcloud_transfers_witness :
    ("train" = "train" ∨ "train" = "val" ∨ "train" = "test")
    ∧ (compose_inputs exBatchData "train" "depth_pointcloud" false false false
        (some "view") false []).map (fun r => r.1.pcComponent) =
      .ok (some (permute102 exBatchData.inputs_pc)) :=
  ⟨by decide, (compose_inputs_depth_pointcloud_transfers exBatchData "train"
    false false false false [] (by decide)).2.2.1⟩

/-- Witness for C3 (amended) at the mixing branch on the concrete batch. -/
theorem compose_inputs_depth_pred_masking_witness :
    ("train" = "train" ∨ "train" = "val" ∨ "train" = "test")
    ∧ (compose_inputs exBatchData "train" "depth_pred" false true false none
        false [1/2]).map (fun r => r.1.depthComponent) =
      .ok (some (depth_map_mix_maps
        (background_setting_b exBatchData.inputs_depth_pred
          exBatchData.inputs_mask 0)
        (background_setting_b exBatchData.inputs_depth
          exBatchData.inputs_mask 0) [1/2])) :=
  ⟨by decide, (compose_inputs_depth_pred_masking exBatchData "train" false true
    false false none [1/2] (by decide)).2.1 rfl rfl rfl⟩

/-- Witness for C4: one concrete instance of each error case and of each
supported-return case. -/
theorem compose_inputs_error_cases_witness :
    (compose_inputs exBatchData "bogus" "depth_pred" false false false none
      false ([] : List ℚ) = .error .assertionError)
    ∧ (compose_inputs exBatchData "train" "img" false false false none false
      ([] : List ℚ) = .error .notImplementedError)
    ∧ (compose_inputs exBatchData "train" "depth_pointcloud" false false false
      (some "bogus") false ([] : List ℚ) = .error .notImplementedError)
    ∧ (∃ out, compose_inputs exBatchData "train" "depth_pred" false false false
      none false ([] : List ℚ) = .ok out)
    ∧ (∃ out, compose_inputs exBatchData "train" "depth_pointcloud" false false
      false (some "world") false ([] : List ℚ) = .ok out) :=
  ⟨(compose_inputs_error_cases exBatchData "bogus" "depth_pred" false false
      false false none []).1 (by decide),
   (compose_inputs_error_cases exBatchData "train" "img" false false false
      false none []).2.1 (by decide) (by decide) (by decide),
   (compose_inputs_error_cases exBatchData "train" "depth_pointcloud" false
      false false false (some "bogus") []).2.2.1 "bogus" (by decide)
      (by decide) (by decide) (by decide) (by decide),
   (compose_inputs_error_cases exBatchData "train" "depth_pred" false false
      false false none []).2.2.2.1 (by decide),
   (compose_inputs_error_cases exBatchData "train" "depth_pointcloud" false
      false false false (some "world") []).2.2.2.2 (by decide)
      (by decide)⟩

/-- The dataset `get_dataset` builds for `'img'` in training mode. -/
def exDataset : Shapes3dDataset :=
  ⟨"root",
    [("inputs", DatasetField.inputs (InputsField.imagesField "img_choy2016"
      [TransformStep.resize IMG_SIZE, TransformStep.toTensor] false true)),
     ("idx", DatasetField.index), ("category", DatasetField.category)],
    "train"⟩

/-- Witness for C7: the concrete `'img'` training dataset and its field
names. -/
theorem get_dataset_dispatch_and_fields_witness :
    get_dataset "root" "train" "img" true = some exDataset
    ∧ exDataset.fields.map Prod.fst = ["inputs", "idx", "category"] :=
  ⟨by decide, (get_dataset_dispatch_and_fields "root" "train" true).2.2.2
    "img" exDataset (by decide)⟩

/-- Witness for C8 (amended) on the concrete map `[1, 2, 5]`. -/
theorem depth_to_L_masked_rescale_witness :
    listMax (maskedVals [1, 2, 5] [true, true, false]) ≠
      listMin (maskedVals [1, 2, 5] [true, true, false])
    ∧ (depth_to_L [1, 2, 5] [true, true, false]).2 =
      background_setting1 [1, 2, 5] [true, true, false]
        (listMax (maskedVals [1, 2, 5] [true, true, false])) :=
  ⟨by decide, (depth_to_L_masked_rescale [1, 2, 5] [true, true, false]
    (by decide)).1⟩
